import Mathlib

/-!
Shallow embedding of `src/main.py`, a FastAPI blogging service with JWT
bearer-token authentication, bcrypt password hashing, and CRUD handlers
over users, categories, posts and comments stored via SQLAlchemy.

Modelling conventions:
- SQLAlchemy tables become lists of row structures inside a `DB` record;
  `query(...).filter(...).first()` becomes `List.find?`, `.all()` becomes
  `List.filter`, `db.delete(row)` becomes `List.eraseP`, and autoincrement
  primary keys become explicit `next_*_id` counters.
- Mutating handlers return `Except HTTPErr α × DB`: the exception value that
  `raise HTTPException(...)` would carry, paired with the resulting store
  state (unchanged on error paths that precede any mutation, exactly as the
  Python statement order gives).
- Time is a `Nat` count of seconds, passed explicitly where the Python code
  reads the clock (`datetime.now(timezone.utc)`).
- Python truthiness of `Optional[int]` values (`if post.category_id:`) is
  modelled by `truthy`: `None` and `0` are falsy, everything else truthy.
- The external crypto libraries (`python-jose` HMAC-SHA256 JWTs and
  `passlib` bcrypt) are not part of this repository; they are modelled
  symbolically from the spec (ideal MAC / ideal salted hash), see the doc
  comments on `HMACSig` and `BcryptHash`.
-/

namespace BlogAI

/-- JWT claim set. The repository only ever reads the `sub` and `exp`
claims (`payload.get("sub")`, and `python-jose` checks `exp` when present),
so the claim dictionary is modelled by exactly these two optional fields. -/
structure Claims where
  sub : Option String
  exp : Option Nat
deriving DecidableEq

/-- Modelled from the spec: the HMAC-SHA256 signature computed by the
external `python-jose` library (spec section 4.2: signs the full claim set
with a symmetric secret, HS256). Modelled as an ideal MAC: the signature is
a free formal symbol determined by, and only equal for, the same secret and
the same signed claim set. -/
structure HMACSig where
  secret : String
  signed : Claims
deriving DecidableEq

/-- Produce the ideal-MAC signature of a claim set under a secret. -/
def hmac_sha256 (secret : String) (claims : Claims) : HMACSig :=
  ⟨secret, claims⟩

/-- An encoded JWT: the claim set together with its signature. -/
structure Token where
  claims : Claims
  sig : HMACSig
deriving DecidableEq

/-- `jwt.encode(to_encode, key, algorithm="HS256")`. -/
def jwt_encode (to_encode : Claims) (key : String) : Token :=
  ⟨to_encode, hmac_sha256 key to_encode⟩

/-- The error raised by `python-jose` on any signature or expiry failure;
the handler only catches it (`except JWTError`), never inspects it. -/
inductive JWTError where
  | error
deriving DecidableEq

/-- `jwt.decode(token, key, algorithms=["HS256"])`: verify the signature
against `key`, then reject when an `exp` claim is present and lies in the
past; on success return the payload. -/
def jwt_decode (token : Token) (key : String) (now : Nat) :
    Except JWTError Claims :=
  if token.sig ≠ hmac_sha256 key token.claims then
    .error .error
  else
    match token.claims.exp with
    | some e => if e < now then .error .error else .ok token.claims
    | none => .ok token.claims

/-- Modelled from the spec: `passlib`'s bcrypt hash (spec section 4.1:
non-deterministic salted one-way digest). Modelled as an ideal salted hash:
a free formal symbol over the random salt and the plaintext; nothing in the
development inverts it, and verification is the only observer. -/
structure BcryptHash where
  salt : Nat
  input : String
deriving DecidableEq

/-- `pwd_context.hash(password)`: the salt argument carries the per-call
randomness of bcrypt (two calls draw two salts). -/
def get_password_hash (salt : Nat) (password : String) : BcryptHash :=
  ⟨salt, password⟩

/-- `pwd_context.verify(plain_password, hashed_password)`: bcrypt re-hashes
the plaintext under the stored salt and compares digests, which in the
ideal model succeeds exactly when the plaintexts coincide. -/
def verify_password (plain_password : String) (hashed_password : BcryptHash) :
    Bool :=
  plain_password == hashed_password.input

/-- Row of the `users` table (`UserDB`). -/
structure UserDB where
  id : Nat
  username : String
  hashed_password : BcryptHash
deriving DecidableEq

/-- Row of the `categories` table (`CategoryDB`). -/
structure CategoryDB where
  id : Nat
  name : String
deriving DecidableEq

/-- Row of the `posts` table (`PostDB`); `category_id` is nullable. -/
structure PostDB where
  id : Nat
  title : String
  content : String
  created_at : Nat
  author_id : Nat
  category_id : Option Nat
deriving DecidableEq

/-- Row of the `comments` table (`CommentDB`). -/
structure CommentDB where
  id : Nat
  content : String
  created_at : Nat
  post_id : Nat
  author_id : Nat
deriving DecidableEq

/-- The relational store: one list per table plus the autoincrement
counters the engine keeps for the integer primary keys. -/
structure DB where
  users : List UserDB
  categories : List CategoryDB
  posts : List PostDB
  comments : List CommentDB
  next_user_id : Nat
  next_category_id : Nat
  next_post_id : Nat
  next_comment_id : Nat
deriving DecidableEq

/-- The value carried by `raise HTTPException(status_code, detail,
headers)`; `www_authenticate_bearer` records whether the headers included
the bearer challenge `WWW-Authenticate: Bearer`. -/
structure HTTPErr where
  status_code : Nat
  detail : String
  www_authenticate_bearer : Bool
deriving DecidableEq

/-- The single 401 used for every token-verification failure
(`credentials_exception` in `get_current_user`). -/
def credentials_exception : HTTPErr :=
  ⟨401, "Could not validate credentials", true⟩

/-- ACCESS_TOKEN_EXPIRE_MINUTES = 30. -/
def ACCESS_TOKEN_EXPIRE_MINUTES : Nat := 30

/-- `create_access_token(data)`: copy the claim dictionary, overwrite `exp`
with now + 30 minutes, and sign with the server secret. -/
def create_access_token (secret : String) (now : Nat) (data : Claims) :
    Token :=
  let to_encode : Claims :=
    { data with exp := some (now + ACCESS_TOKEN_EXPIRE_MINUTES * 60) }
  jwt_encode to_encode secret

/-- `get_user(db, username)`: first `users` row with the given username. -/
def get_user (db : DB) (username : String) : Option UserDB :=
  db.users.find? (fun u => u.username == username)

/-- `get_current_user(token, db)`: decode and verify the token, extract the
`sub` claim, and resolve it in the user store; every failure raises the one
`credentials_exception`. -/
def get_current_user (secret : String) (now : Nat) (token : Token)
    (db : DB) : Except HTTPErr UserDB :=
  match jwt_decode token secret now with
  | .error _ => .error credentials_exception
  | .ok payload =>
    match payload.sub with
    | none => .error credentials_exception
    | some username =>
      match get_user db username with
      | none => .error credentials_exception
      | some user => .ok user

/-- Request body of `POST /users` (`UserCreate`). -/
structure UserCreate where
  username : String
  password : String
deriving DecidableEq

/-- Request body of `POST /posts` and `PUT /posts/{id}` (`PostCreate`);
`category_id` is `Optional[int]` defaulting to `None`. -/
structure PostCreate where
  title : String
  content : String
  category_id : Option Nat
deriving DecidableEq

/-- Request body of `POST /posts/{id}/comments` (`CommentCreate`). -/
structure CommentCreate where
  content : String
deriving DecidableEq

/-- Python truthiness of an `Optional[int]`: `None` and `0` are falsy. The
handlers test `if post.category_id:` and `if category_id:` on such values. -/
def truthy : Option Nat → Bool
  | none => false
  | some n => n != 0

/-- Replace the first list element satisfying `pred` (the in-place ORM
mutation of the single row `.first()` returned). -/
def replaceFirst (pred : α → Bool) (new : α) : List α → List α
  | [] => []
  | x :: xs => if pred x then new :: xs else x :: replaceFirst pred new xs

/-- `POST /users` (`create_user`): reject an already-registered username
with a 400 before touching the store, otherwise hash the password and
insert the new row. `salt` is the randomness bcrypt draws for this call. -/
def create_user (db : DB) (user : UserCreate) (salt : Nat) :
    Except HTTPErr UserDB × DB :=
  match get_user db user.username with
  | some _ => (.error ⟨400, "Username already registered", false⟩, db)
  | none =>
    let hashed_password := get_password_hash salt user.password
    let db_user : UserDB := ⟨db.next_user_id, user.username, hashed_password⟩
    (.ok db_user,
     { db with users := db.users ++ [db_user],
               next_user_id := db.next_user_id + 1 })

/-- `POST /token` (`login`): verify the password and mint a token whose
claim dictionary is `{sub: username}` before `exp` is stamped. -/
def login (db : DB) (secret : String) (now : Nat)
    (username password : String) : Except HTTPErr Token :=
  match get_user db username with
  | none =>
    .error ⟨401, "Incorrect username or password", true⟩
  | some user =>
    if verify_password password user.hashed_password then
      .ok (create_access_token secret now ⟨some user.username, none⟩)
    else
      .error ⟨401, "Incorrect username or password", true⟩

/-- `POST /posts` (`create_post`): when a truthy `category_id` is supplied,
its category must exist, else 404 before any row is written; then the post
row is inserted stamped with the authenticated author. -/
def create_post (db : DB) (now : Nat) (post : PostCreate)
    (current_user : UserDB) : Except HTTPErr PostDB × DB :=
  if truthy post.category_id &&
      (db.categories.find? (fun c => some c.id == post.category_id)).isNone then
    (.error ⟨404, "Category not found", false⟩, db)
  else
    let db_post : PostDB :=
      ⟨db.next_post_id, post.title, post.content, now, current_user.id,
       post.category_id⟩
    (.ok db_post,
     { db with posts := db.posts ++ [db_post],
               next_post_id := db.next_post_id + 1 })

/-- `GET /posts` (`get_posts`): the caller's own posts, further filtered by
category only when the query parameter is truthy. -/
def get_posts (db : DB) (category_id : Option Nat) (current_user : UserDB) :
    List PostDB :=
  let query := db.posts.filter (fun p => p.author_id == current_user.id)
  if truthy category_id then
    query.filter (fun p => p.category_id == category_id)
  else
    query

/-- `GET /posts/{post_id}` (`get_post`): first post matching both the id
and the authenticated author, else 404. -/
def get_post (db : DB) (post_id : Nat) (current_user : UserDB) :
    Except HTTPErr PostDB :=
  match db.posts.find?
      (fun p => p.id == post_id && p.author_id == current_user.id) with
  | none => .error ⟨404, "Post not found", false⟩
  | some post => .ok post

/-- `PUT /posts/{post_id}` (`update_post`): resolve the caller's post (404
otherwise), check a truthy `category_id` exists (404 otherwise), then
overwrite title, content and category of that row. -/
def update_post (db : DB) (post_id : Nat) (updated_post : PostCreate)
    (current_user : UserDB) : Except HTTPErr PostDB × DB :=
  match db.posts.find?
      (fun p => p.id == post_id && p.author_id == current_user.id) with
  | none => (.error ⟨404, "Post not found", false⟩, db)
  | some db_post =>
    if truthy updated_post.category_id &&
        (db.categories.find?
          (fun c => some c.id == updated_post.category_id)).isNone then
      (.error ⟨404, "Category not found", false⟩, db)
    else
      let new_post : PostDB :=
        { db_post with title := updated_post.title,
                       content := updated_post.content,
                       category_id := updated_post.category_id }
      let posts :=
        replaceFirst
          (fun p => p.id == post_id && p.author_id == current_user.id)
          new_post db.posts
      (.ok new_post, { db with posts := posts })

/-- `DELETE /posts/{post_id}` (`delete_post`): resolve the caller's post
(404 otherwise) and delete exactly that row; comments are untouched. -/
def delete_post (db : DB) (post_id : Nat) (current_user : UserDB) :
    Except HTTPErr String × DB :=
  match db.posts.find?
      (fun p => p.id == post_id && p.author_id == current_user.id) with
  | none => (.error ⟨404, "Post not found", false⟩, db)
  | some _ =>
    let posts :=
      db.posts.eraseP
        (fun p => p.id == post_id && p.author_id == current_user.id)
    (.ok "Post deleted", { db with posts := posts })

/-- `POST /posts/{post_id}/comments` (`create_comment`): the post must
exist (any owner), then the comment row is inserted stamped with the
authenticated author. -/
def create_comment (db : DB) (now : Nat) (post_id : Nat)
    (comment : CommentCreate) (current_user : UserDB) :
    Except HTTPErr CommentDB × DB :=
  match db.posts.find? (fun p => p.id == post_id) with
  | none => (.error ⟨404, "Post not found", false⟩, db)
  | some _ =>
    let db_comment : CommentDB :=
      ⟨db.next_comment_id, comment.content, now, post_id, current_user.id⟩
    (.ok db_comment,
     { db with comments := db.comments ++ [db_comment],
               next_comment_id := db.next_comment_id + 1 })

/-- `GET /posts/{post_id}/comments` (`get_comments`): no authentication
dependency at all — the handler takes no current user; the post must exist,
then every comment with that `post_id` is returned. -/
def get_comments (db : DB) (post_id : Nat) :
    Except HTTPErr (List CommentDB) :=
  match db.posts.find? (fun p => p.id == post_id) with
  | none => .error ⟨404, "Post not found", false⟩
  | some _ => .ok (db.comments.filter (fun c => c.post_id == post_id))

/-- Outcome of a request handler body as `get_db`'s generator observes it:
a normal return, a raised `HTTPException`, or any other unexpected fault. -/
inductive ReqOutcome (α : Type) where
  | success (value : α)
  | handledError (e : HTTPErr)
  | fault
deriving DecidableEq

/-- A store session; `closed` records whether `close()` has run. -/
structure DBSession where
  closed : Bool
deriving DecidableEq

/-- `SessionLocal()`: a fresh open session. -/
def SessionLocal : DBSession := ⟨false⟩

/-- `get_db()`: acquire a session, hand it to the request handler, and —
this is the `try/finally` around the `yield` — run `db.close()` when the
handler finishes, whichever of the three outcomes it finished with. -/
def get_db (handler : DBSession → ReqOutcome α) : ReqOutcome α × DBSession :=
  let db := SessionLocal
  let outcome := handler db
  (outcome, { db with closed := true })

/-- Claim C4: for every plaintext p, verify(p, hash(p)) is true; two
separate calls of hash(p) (drawing distinct salts) yield two different
opaque values that both verify p; and for distinct plaintexts p1 ≠ p2,
verify(p1, hash(p2)) is false. -/
theorem C4_password_hashing (p p1 p2 : String) (s s1 s2 : Nat)
    (hs : s1 ≠ s2) (hp : p1 ≠ p2) :
    verify_password p (get_password_hash s p) = true ∧
    get_password_hash s1 p ≠ get_password_hash s2 p ∧
    verify_password p (get_password_hash s1 p) = true ∧
    verify_password p (get_password_hash s2 p) = true ∧
    verify_password p1 (get_password_hash s p2) = false := by
  refine ⟨by simp [verify_password, get_password_hash], ?_,
    by simp [verify_password, get_password_hash],
    by simp [verify_password, get_password_hash], ?_⟩
  · intro h
    exact hs (congrArg BcryptHash.salt h)
  · simpa [verify_password, get_password_hash] using hp

/-- Witness for C4 at p = "pass", p1 = "a", p2 = "b", salts 0 and 1. -/
theorem C4_witness :
    verify_password "pass" (get_password_hash 0 "pass") = true ∧
    get_password_hash 0 "pass" ≠ get_password_hash 1 "pass" ∧
    verify_password "pass" (get_password_hash 0 "pass") = true ∧
    verify_password "pass" (get_password_hash 1 "pass") = true ∧
    verify_password "a" (get_password_hash 0 "b") = false := by
  have h := C4_password_hashing "pass" "a" "b" 0 0 1 (by decide) (by decide)
  exact ⟨h.1, h.2.1, h.2.2.1, h.2.2.2.1, h.2.2.2.2⟩

/-- Claim C5: registering an already-taken username fails with the 400
duplicate error and leaves the store exactly as it was — no new user row,
every existing hash untouched — for every second-attempt password and every
salt the hasher might have drawn. -/
theorem C5_duplicate_username (db : DB) (user : UserCreate) (salt : Nat)
    (h : ∃ u ∈ db.users, u.username = user.username) :
    create_user db user salt =
      (.error ⟨400, "Username already registered", false⟩, db) := by
  obtain ⟨u, hu, hname⟩ := h
  have hsome : (get_user db user.username).isSome := by
    rw [get_user, List.find?_isSome]
    exact ⟨u, hu, by simp [hname]⟩
  cases hfind : get_user db user.username with
  | none => rw [hfind] at hsome; simp at hsome
  | some v => simp [create_user, hfind]

/-- Witness for C5: "bob" is registered; a second registration of "bob"
with a different password fails and the store is unchanged. -/
theorem C5_witness :
    create_user
        (⟨[⟨1, "bob", ⟨0, "pw1"⟩⟩], [], [], [], 2, 1, 1, 1⟩ : DB)
        ⟨"bob", "pw2"⟩ 9 =
      (.error ⟨400, "Username already registered", false⟩,
       (⟨[⟨1, "bob", ⟨0, "pw1"⟩⟩], [], [], [], 2, 1, 1, 1⟩ : DB)) :=
  C5_duplicate_username _ _ 9 ⟨⟨1, "bob", ⟨0, "pw1"⟩⟩, by simp, rfl⟩

/-- Claim C7: comment listing takes no authenticated caller at all (the
embedded `get_comments` has no user argument); for an existing post id it
returns exactly the comments whose `post_id` matches, and for a nonexistent
post id it returns the 404. -/
theorem C7_comment_listing (db : DB) (post_id : Nat) :
    ((∃ p ∈ db.posts, p.id = post_id) →
      get_comments db post_id =
        .ok (db.comments.filter (fun c => c.post_id == post_id))) ∧
    ((∀ p ∈ db.posts, p.id ≠ post_id) →
      get_comments db post_id = .error ⟨404, "Post not found", false⟩) := by
  constructor
  · rintro ⟨p, hp, hid⟩
    have hsome : (db.posts.find? (fun q => q.id == post_id)).isSome :=
      List.find?_isSome.2 ⟨p, hp, by simp [hid]⟩
    cases hfind : db.posts.find? (fun q => q.id == post_id) with
    | none => rw [hfind] at hsome; simp at hsome
    | some q => simp [get_comments, hfind]
  · intro h
    have hnone : db.posts.find? (fun q => q.id == post_id) = none :=
      List.find?_eq_none.2 (fun q hq => by simp [h q hq])
    simp [get_comments, hnone]

/-- Witness for C7: a store with post 1 (two comments on it, one on
nothing) and no post 2. -/
theorem C7_witness :
    get_comments
        (⟨[⟨1, "u", ⟨0, "p"⟩⟩], [], [⟨1, "t", "c", 0, 1, none⟩],
          [⟨1, "a", 0, 1, 1⟩, ⟨2, "b", 0, 7, 1⟩, ⟨3, "c", 0, 1, 1⟩],
          2, 1, 2, 4⟩ : DB) 1 =
      .ok [⟨1, "a", 0, 1, 1⟩, ⟨3, "c", 0, 1, 1⟩] ∧
    get_comments
        (⟨[⟨1, "u", ⟨0, "p"⟩⟩], [], [⟨1, "t", "c", 0, 1, none⟩],
          [⟨1, "a", 0, 1, 1⟩, ⟨2, "b", 0, 7, 1⟩, ⟨3, "c", 0, 1, 1⟩],
          2, 1, 2, 4⟩ : DB) 2 =
      .error ⟨404, "Post not found", false⟩ := by
  constructor
  · have h := (C7_comment_listing
      (⟨[⟨1, "u", ⟨0, "p"⟩⟩], [], [⟨1, "t", "c", 0, 1, none⟩],
        [⟨1, "a", 0, 1, 1⟩, ⟨2, "b", 0, 7, 1⟩, ⟨3, "c", 0, 1, 1⟩],
        2, 1, 2, 4⟩ : DB) 1).1 ⟨⟨1, "t", "c", 0, 1, none⟩, by simp, rfl⟩
    simpa using h
  · exact (C7_comment_listing _ 2).2 (by decide)

/-- Claim C8: every request's handler receives a freshly acquired session,
its outcome — success, handled error, or unexpected fault alike — is passed
through unchanged, and the session is closed on that exit path (the
`try/finally` around `get_db`'s `yield`). -/
theorem C8_session_release (α : Type) (handler : DBSession → ReqOutcome α) :
    (get_db handler).1 = handler SessionLocal ∧
    ((get_db handler).2).closed = true :=
  ⟨rfl, rfl⟩

/-- A successful decode always hands back the token's own claim set. -/
theorem jwt_decode_ok (token : Token) (key : String) (now : Nat)
    (payload : Claims) (h : jwt_decode token key now = .ok payload) :
    payload = token.claims := by
  unfold jwt_decode at h
  split at h
  · exact absurd h (by simp)
  · split at h
    · split at h
      · exact absurd h (by simp)
      · cases h; rfl
    · cases h; rfl

/-- Claim C1: token verification fails with the single 401
bearer-challenge `credentials_exception` in each of the four failure cases
— forged signature, a token signed under a different secret (for every
claim set), an expired token, a missing `sub` claim, and a `sub` that
resolves to no stored user — and on success it returns a user record that
is actually in the store and carries the claimed username. -/
theorem C1_token_verification (secret : String) (now : Nat) (db : DB) :
    credentials_exception = ⟨401, "Could not validate credentials", true⟩ ∧
    (∀ token : Token, token.sig ≠ hmac_sha256 secret token.claims →
      get_current_user secret now token db = .error credentials_exception) ∧
    (∀ (claims : Claims) (other : String), other ≠ secret →
      get_current_user secret now (jwt_encode claims other) db =
        .error credentials_exception) ∧
    (∀ (claims : Claims) (e : Nat), claims.exp = some e → e < now →
      get_current_user secret now (jwt_encode claims secret) db =
        .error credentials_exception) ∧
    (∀ claims : Claims, claims.sub = none →
      get_current_user secret now (jwt_encode claims secret) db =
        .error credentials_exception) ∧
    (∀ (claims : Claims) (name : String), claims.sub = some name →
      get_user db name = none →
      get_current_user secret now (jwt_encode claims secret) db =
        .error credentials_exception) ∧
    (∀ (token : Token) (user : UserDB),
      get_current_user secret now token db = .ok user →
      user ∈ db.users ∧ token.claims.sub = some user.username) := by
  refine ⟨rfl, ?_, ?_, ?_, ?_, ?_, ?_⟩
  · intro token hsig
    simp [get_current_user, jwt_decode, hsig]
  · intro claims other hne
    have hsig : (jwt_encode claims other).sig ≠
        hmac_sha256 secret (jwt_encode claims other).claims := by
      simp [jwt_encode, hmac_sha256]
      intro h
      exact absurd h hne
    simp [get_current_user, jwt_decode, hsig]
  · intro claims e hexp hlt
    simp [get_current_user, jwt_decode, jwt_encode, hexp, hlt]
  · intro claims hsub
    cases hexp : claims.exp with
    | none => simp [get_current_user, jwt_decode, jwt_encode, hexp, hsub]
    | some e =>
      by_cases hlt : e < now
      · simp [get_current_user, jwt_decode, jwt_encode, hexp, hlt]
      · simp [get_current_user, jwt_decode, jwt_encode, hexp, hlt, hsub]
  · intro claims name hsub hlook
    cases hexp : claims.exp with
    | none => simp [get_current_user, jwt_decode, jwt_encode, hexp, hsub, hlook]
    | some e =>
      by_cases hlt : e < now
      · simp [get_current_user, jwt_decode, jwt_encode, hexp, hlt]
      · simp [get_current_user, jwt_decode, jwt_encode, hexp, hlt, hsub, hlook]
  · intro token user hok
    unfold get_current_user at hok
    cases hdec : jwt_decode token secret now with
    | error e => rw [hdec] at hok; exact absurd hok (by simp)
    | ok payload =>
      rw [hdec] at hok
      dsimp only at hok
      have hpay : payload = token.claims := jwt_decode_ok _ _ _ _ hdec
      cases hsub : payload.sub with
      | none => rw [hsub] at hok; exact absurd hok (by simp)
      | some name =>
        rw [hsub] at hok
        dsimp only at hok
        cases hlook : get_user db name with
        | none => rw [hlook] at hok; exact absurd hok (by simp)
        | some u =>
          rw [hlook] at hok
          dsimp only at hok
          cases hok
          have hlook' : db.users.find? (fun x => x.username == name) =
              some user := hlook
          have hmem := List.mem_of_find?_eq_some hlook'
          have hname := List.find?_some hlook'
          refine ⟨hmem, ?_⟩
          rw [← hpay, hsub]
          simp at hname
          rw [hname]

/-- Witness for C1: a store holding only "bob"; a token for "alice" signed
with the wrong secret fails, an expired token for "bob" fails, a token with
no subject fails, a fresh token for unknown "alice" fails, and a fresh
token for "bob" resolves to the stored record. -/
theorem C1_witness :
    get_current_user "srv" 100
        (jwt_encode ⟨some "bob", some 200⟩ "evil")
        (⟨[⟨1, "bob", ⟨0, "pw"⟩⟩], [], [], [], 2, 1, 1, 1⟩ : DB) =
      .error credentials_exception ∧
    get_current_user "srv" 100
        (jwt_encode ⟨some "bob", some 50⟩ "srv")
        (⟨[⟨1, "bob", ⟨0, "pw"⟩⟩], [], [], [], 2, 1, 1, 1⟩ : DB) =
      .error credentials_exception ∧
    get_current_user "srv" 100
        (jwt_encode ⟨none, some 200⟩ "srv")
        (⟨[⟨1, "bob", ⟨0, "pw"⟩⟩], [], [], [], 2, 1, 1, 1⟩ : DB) =
      .error credentials_exception ∧
    get_current_user "srv" 100
        (jwt_encode ⟨some "alice", some 200⟩ "srv")
        (⟨[⟨1, "bob", ⟨0, "pw"⟩⟩], [], [], [], 2, 1, 1, 1⟩ : DB) =
      .error credentials_exception ∧
    (⟨1, "bob", ⟨0, "pw"⟩⟩ : UserDB) ∈
        (⟨[⟨1, "bob", ⟨0, "pw"⟩⟩], [], [], [], 2, 1, 1, 1⟩ : DB).users := by
  have h := C1_token_verification "srv" 100
    (⟨[⟨1, "bob", ⟨0, "pw"⟩⟩], [], [], [], 2, 1, 1, 1⟩ : DB)
  refine ⟨h.2.2.1 ⟨some "bob", some 200⟩ "evil" (by decide),
          h.2.2.2.1 ⟨some "bob", some 50⟩ 50 rfl (by decide),
          h.2.2.2.2.1 ⟨none, some 200⟩ rfl,
          h.2.2.2.2.2.1 ⟨some "alice", some 200⟩ "alice" rfl (by decide),
          ?_⟩
  exact (h.2.2.2.2.2.2 (jwt_encode ⟨some "bob", some 200⟩ "srv")
    ⟨1, "bob", ⟨0, "pw"⟩⟩ rfl).1

/-- Claim C3: a token minted for subject "alice" at time T carries sub =
"alice" and exp = T + 30 minutes in a claim set signed under the server
secret, verifies (resolving the stored alice) when presented at T + 29
minutes, and fails verification at T + 31 minutes. -/
theorem C3_token_lifetime (secret : String) (T : Nat) (db : DB)
    (alice : UserDB) (hlook : get_user db "alice" = some alice) :
    (create_access_token secret T ⟨some "alice", none⟩).claims.sub =
      some "alice" ∧
    (create_access_token secret T ⟨some "alice", none⟩).claims.exp =
      some (T + 30 * 60) ∧
    (create_access_token secret T ⟨some "alice", none⟩).sig =
      hmac_sha256 secret
        (create_access_token secret T ⟨some "alice", none⟩).claims ∧
    get_current_user secret (T + 29 * 60)
        (create_access_token secret T ⟨some "alice", none⟩) db = .ok alice ∧
    get_current_user secret (T + 31 * 60)
        (create_access_token secret T ⟨some "alice", none⟩) db =
      .error credentials_exception := by
  refine ⟨rfl, rfl, rfl, ?_, ?_⟩
  · have hfresh : ¬ (T + 30 * 60 < T + 29 * 60) := by omega
    simp [get_current_user, jwt_decode, create_access_token, jwt_encode,
      ACCESS_TOKEN_EXPIRE_MINUTES, hfresh, hlook]
  · have hstale : T + 30 * 60 < T + 31 * 60 := by omega
    simp [get_current_user, jwt_decode, create_access_token, jwt_encode,
      ACCESS_TOKEN_EXPIRE_MINUTES, hstale]

/-- Witness for C3 at secret "srv", T = 1000, with "alice" stored. -/
theorem C3_witness :
    (create_access_token "srv" 1000 ⟨some "alice", none⟩).claims.sub =
      some "alice" ∧
    (create_access_token "srv" 1000 ⟨some "alice", none⟩).claims.exp =
      some (1000 + 30 * 60) ∧
    get_current_user "srv" (1000 + 29 * 60)
        (create_access_token "srv" 1000 ⟨some "alice", none⟩)
        (⟨[⟨1, "alice", ⟨0, "pw"⟩⟩], [], [], [], 2, 1, 1, 1⟩ : DB) =
      .ok ⟨1, "alice", ⟨0, "pw"⟩⟩ ∧
    get_current_user "srv" (1000 + 31 * 60)
        (create_access_token "srv" 1000 ⟨some "alice", none⟩)
        (⟨[⟨1, "alice", ⟨0, "pw"⟩⟩], [], [], [], 2, 1, 1, 1⟩ : DB) =
      .error credentials_exception := by
  have h := C3_token_lifetime "srv" 1000
    (⟨[⟨1, "alice", ⟨0, "pw"⟩⟩], [], [], [], 2, 1, 1, 1⟩ : DB)
    ⟨1, "alice", ⟨0, "pw"⟩⟩ (by decide)
  exact ⟨h.1, h.2.1, h.2.2.2.1, h.2.2.2.2⟩

/-- Claim C2: single-post read, update and delete succeed only when a post
with the requested id owned by the caller exists; whenever no such post
exists — nonexistent id and wrong owner alike — all three return the one
fixed 404 "Post not found" with the store untouched, so the two cases are
indistinguishable; and no error any of them can produce is a separate
forbidden signal (every error status is 404). -/
theorem C2_ownership_gate (db : DB) (current_user : UserDB)
    (post_id : Nat) :
    (∀ p, get_post db post_id current_user = .ok p →
      p ∈ db.posts ∧ p.id = post_id ∧ p.author_id = current_user.id) ∧
    (∀ up r db', update_post db post_id up current_user = (.ok r, db') →
      ∃ p ∈ db.posts, p.id = post_id ∧ p.author_id = current_user.id) ∧
    (∀ r db', delete_post db post_id current_user = (.ok r, db') →
      ∃ p ∈ db.posts, p.id = post_id ∧ p.author_id = current_user.id) ∧
    ((∀ p ∈ db.posts, ¬(p.id = post_id ∧ p.author_id = current_user.id)) →
      get_post db post_id current_user =
        .error ⟨404, "Post not found", false⟩ ∧
      (∀ up, update_post db post_id up current_user =
        (.error ⟨404, "Post not found", false⟩, db)) ∧
      delete_post db post_id current_user =
        (.error ⟨404, "Post not found", false⟩, db)) ∧
    (∀ e, get_post db post_id current_user = .error e →
      e = ⟨404, "Post not found", false⟩) ∧
    (∀ e db', delete_post db post_id current_user = (.error e, db') →
      e = ⟨404, "Post not found", false⟩) ∧
    (∀ up e db', update_post db post_id up current_user = (.error e, db') →
      e.status_code = 404) := by
  refine ⟨?_, ?_, ?_, ?_, ?_, ?_, ?_⟩
  · intro p h
    cases hfind : db.posts.find?
        (fun q => q.id == post_id && q.author_id == current_user.id) with
    | none =>
      rw [get_post, hfind] at h
      exact absurd h (by simp)
    | some q =>
      rw [get_post, hfind] at h
      dsimp only at h
      cases h
      have hpq := List.find?_some hfind
      simp only [Bool.and_eq_true, beq_iff_eq] at hpq
      exact ⟨List.mem_of_find?_eq_some hfind, hpq.1, hpq.2⟩
  · intro up r db' h
    cases hfind : db.posts.find?
        (fun q => q.id == post_id && q.author_id == current_user.id) with
    | none =>
      rw [update_post, hfind] at h
      exact absurd (congrArg Prod.fst h) (by simp)
    | some q =>
      have hpq := List.find?_some hfind
      simp only [Bool.and_eq_true, beq_iff_eq] at hpq
      exact ⟨q, List.mem_of_find?_eq_some hfind, hpq.1, hpq.2⟩
  · intro r db' h
    cases hfind : db.posts.find?
        (fun q => q.id == post_id && q.author_id == current_user.id) with
    | none =>
      rw [delete_post, hfind] at h
      exact absurd (congrArg Prod.fst h) (by simp)
    | some q =>
      have hpq := List.find?_some hfind
      simp only [Bool.and_eq_true, beq_iff_eq] at hpq
      exact ⟨q, List.mem_of_find?_eq_some hfind, hpq.1, hpq.2⟩
  · intro habs
    have hnone : db.posts.find?
        (fun q => q.id == post_id && q.author_id == current_user.id) =
          none := by
      refine List.find?_eq_none.2 (fun q hq hpred => habs q hq ?_)
      simpa using hpred
    exact ⟨by simp [get_post, hnone], fun up => by simp [update_post, hnone],
      by simp [delete_post, hnone]⟩
  · intro e h
    cases hfind : db.posts.find?
        (fun q => q.id == post_id && q.author_id == current_user.id) with
    | none =>
      rw [get_post, hfind] at h
      dsimp only at h
      injection h with h
      exact h.symm
    | some q =>
      rw [get_post, hfind] at h
      exact absurd h (by simp)
  · intro e db' h
    cases hfind : db.posts.find?
        (fun q => q.id == post_id && q.author_id == current_user.id) with
    | none =>
      rw [delete_post, hfind] at h
      have h1 := congrArg Prod.fst h
      dsimp only at h1
      injection h1 with h1
      exact h1.symm
    | some q =>
      rw [delete_post, hfind] at h
      exact absurd (congrArg Prod.fst h) (by simp)
  · intro up e db' h
    cases hfind : db.posts.find?
        (fun q => q.id == post_id && q.author_id == current_user.id) with
    | none =>
      rw [update_post, hfind] at h
      have h1 := congrArg Prod.fst h
      dsimp only at h1
      injection h1 with h1
      rw [← h1]
    | some q =>
      rw [update_post, hfind] at h
      dsimp only at h
      by_cases hc : (truthy up.category_id &&
          (db.categories.find?
            (fun c => some c.id == up.category_id)).isNone) = true
      · rw [if_pos hc] at h
        have h1 := congrArg Prod.fst h
        dsimp only at h1
        injection h1 with h1
        rw [← h1]
      · rw [if_neg hc] at h
        exact absurd (congrArg Prod.fst h) (by simp)

/-- Witness for C2: post 1 belongs to user 1; user 2 reading post 1 and
user 1 deleting nonexistent post 5 both get the identical 404. -/
theorem C2_witness :
    get_post
        (⟨[⟨1, "a", ⟨0, "p"⟩⟩, ⟨2, "e", ⟨0, "q"⟩⟩], [],
          [⟨1, "t", "c", 0, 1, none⟩], [], 3, 1, 2, 1⟩ : DB) 1
        ⟨2, "e", ⟨0, "q"⟩⟩ =
      .error ⟨404, "Post not found", false⟩ ∧
    delete_post
        (⟨[⟨1, "a", ⟨0, "p"⟩⟩, ⟨2, "e", ⟨0, "q"⟩⟩], [],
          [⟨1, "t", "c", 0, 1, none⟩], [], 3, 1, 2, 1⟩ : DB) 5
        ⟨1, "a", ⟨0, "p"⟩⟩ =
      (.error ⟨404, "Post not found", false⟩,
       (⟨[⟨1, "a", ⟨0, "p"⟩⟩, ⟨2, "e", ⟨0, "q"⟩⟩], [],
         [⟨1, "t", "c", 0, 1, none⟩], [], 3, 1, 2, 1⟩ : DB)) := by
  constructor
  · exact ((C2_ownership_gate _ ⟨2, "e", ⟨0, "q"⟩⟩ 1).2.2.2.1
      (by decide)).1
  · exact ((C2_ownership_gate _ ⟨1, "a", ⟨0, "p"⟩⟩ 5).2.2.2.1
      (by decide)).2.2

/-- Claim C9: a `category_id` of 0 is falsy in Python, so it is treated as
if no category were given: `create_post` skips the category-existence check
for every store (even one with no categories at all) and writes the post
with `category_id` 0; `update_post` likewise skips the check and writes 0
whenever the caller's post exists; and `get_posts` ignores a category
filter of 0, returning all of the caller's posts unfiltered. -/
theorem C9_zero_category_id (db : DB) (now : Nat) (current_user : UserDB) :
    (∀ post : PostCreate, post.category_id = some 0 →
      ∃ row : PostDB,
        create_post db now post current_user =
          (.ok row,
           { db with posts := db.posts ++ [row],
                     next_post_id := db.next_post_id + 1 }) ∧
        row.category_id = some 0) ∧
    (∀ (post_id : Nat) (up : PostCreate), up.category_id = some 0 →
      (∃ p ∈ db.posts, p.id = post_id ∧ p.author_id = current_user.id) →
      ∃ (row : PostDB) (db' : DB),
        update_post db post_id up current_user = (.ok row, db') ∧
        row.category_id = some 0) ∧
    get_posts db (some 0) current_user =
      db.posts.filter (fun p => p.author_id == current_user.id) := by
  refine ⟨?_, ?_, ?_⟩
  · intro post hcat
    refine ⟨⟨db.next_post_id, post.title, post.content, now,
      current_user.id, post.category_id⟩, ?_, hcat⟩
    have : truthy post.category_id = false := by rw [hcat]; rfl
    simp [create_post, this]
  · intro post_id up hcat hex
    obtain ⟨p, hp, hid, hauthor⟩ := hex
    have hsome : (db.posts.find?
        (fun q => q.id == post_id && q.author_id == current_user.id)).isSome :=
      List.find?_isSome.2 ⟨p, hp, by simp [hid, hauthor]⟩
    cases hfind : db.posts.find?
        (fun q => q.id == post_id && q.author_id == current_user.id) with
    | none => rw [hfind] at hsome; simp at hsome
    | some q =>
      have hfalse : truthy up.category_id = false := by rw [hcat]; rfl
      refine ⟨{ q with title := up.title, content := up.content, category_id := up.category_id }, { db with posts := replaceFirst (fun r => r.id == post_id && r.author_id == current_user.id) { q with title := up.title, content := up.content, category_id := up.category_id } db.posts }, ?_, hcat⟩
      simp [update_post, hfind, hfalse]
  · rfl

/-- Witness for C9: an empty store (no categories, so category 0 does not
exist); a post created with `category_id` 0 is accepted and written, and a
listing filtered by category 0 returns the caller's posts unfiltered. -/
theorem C9_witness :
    (∃ row : PostDB,
      create_post (⟨[⟨1, "u", ⟨0, "p"⟩⟩], [], [], [], 2, 1, 1, 1⟩ : DB) 5
          ⟨"t", "c", some 0⟩ ⟨1, "u", ⟨0, "p"⟩⟩ =
        (.ok row,
         { (⟨[⟨1, "u", ⟨0, "p"⟩⟩], [], [], [], 2, 1, 1, 1⟩ : DB) with
             posts := [] ++ [row], next_post_id := 2 }) ∧
      row.category_id = some 0) ∧
    get_posts (⟨[⟨1, "u", ⟨0, "p"⟩⟩], [], [], [], 2, 1, 1, 1⟩ : DB)
        (some 0) ⟨1, "u", ⟨0, "p"⟩⟩ = [] := by
  have h := C9_zero_category_id
    (⟨[⟨1, "u", ⟨0, "p"⟩⟩], [], [], [], 2, 1, 1, 1⟩ : DB) 5
    ⟨1, "u", ⟨0, "p"⟩⟩
  exact ⟨h.1 ⟨"t", "c", some 0⟩ rfl, h.2.2⟩

/-- Counterexample to C6 as stated: in a store whose `categories` table is
empty, so that `category_id` 0 refers to no existing category, an
authenticated creation request carrying `category_id` 0 is not rejected —
it succeeds and a post row is written. -/
theorem C6_counterexample :
    (⟨[⟨1, "u", ⟨0, "p"⟩⟩], [], [], [], 2, 1, 1, 1⟩ : DB).categories =
      [] ∧
    create_post (⟨[⟨1, "u", ⟨0, "p"⟩⟩], [], [], [], 2, 1, 1, 1⟩ : DB) 5
        ⟨"t", "c", some 0⟩ ⟨1, "u", ⟨0, "p"⟩⟩ =
      (.ok ⟨1, "t", "c", 5, 1, some 0⟩,
       (⟨[⟨1, "u", ⟨0, "p"⟩⟩], [], [⟨1, "t", "c", 5, 1, some 0⟩], [],
         2, 1, 2, 1⟩ : DB)) := by
  exact ⟨rfl, rfl⟩

/-- Claim C6 as amended: for every authenticated post-creation request
whose `category_id` is truthy (present and nonzero) and refers to no
existing category, the request is rejected with the 404 before any post
row is written — the store is returned unchanged. -/
theorem C6_missing_category_rejected (db : DB) (now : Nat)
    (post : PostCreate) (current_user : UserDB)
    (htruthy : truthy post.category_id = true)
    (habs : ∀ c ∈ db.categories, some c.id ≠ post.category_id) :
    create_post db now post current_user =
      (.error ⟨404, "Category not found", false⟩, db) := by
  have hnone : db.categories.find?
      (fun c => some c.id == post.category_id) = none := by
    refine List.find?_eq_none.2 (fun c hc hpred => habs c hc ?_)
    simpa using hpred
  simp [create_post, htruthy, hnone]

/-- Witness for the amended C6: a store holding only category 7; creating
a post with `category_id` 3 is rejected with the 404 and nothing is
written. -/
theorem C6_witness :
    create_post
        (⟨[⟨1, "u", ⟨0, "p"⟩⟩], [⟨7, "tech"⟩], [], [], 2, 8, 1, 1⟩ : DB) 5
        ⟨"t", "c", some 3⟩ ⟨1, "u", ⟨0, "p"⟩⟩ =
      (.error ⟨404, "Category not found", false⟩,
       (⟨[⟨1, "u", ⟨0, "p"⟩⟩], [⟨7, "tech"⟩], [], [], 2, 8, 1, 1⟩ : DB)) :=
  C6_missing_category_rejected _ 5 ⟨"t", "c", some 3⟩ ⟨1, "u", ⟨0, "p"⟩⟩
    (by decide) (by decide)

/-- After erasing the one matching row from a posts list with pairwise
distinct primary keys, no remaining row carries the erased id. -/
theorem eraseP_id_gone (post_id author_id : Nat) :
    ∀ l : List PostDB, (l.map PostDB.id).Nodup →
      (∃ p ∈ l, p.id = post_id ∧ p.author_id = author_id) →
      ∀ q ∈ l.eraseP
        (fun p => p.id == post_id && p.author_id == author_id),
        q.id ≠ post_id := by
  intro l
  induction l with
  | nil =>
    rintro _ ⟨p, hp, _⟩
    exact absurd hp (by simp)
  | cons x xs ih =>
    intro hnodup hex q hq
    rw [List.map_cons, List.nodup_cons] at hnodup
    by_cases hx : (x.id == post_id && x.author_id == author_id) = true
    · simp only [List.eraseP_cons, hx, cond_true] at hq
      simp only [Bool.and_eq_true, beq_iff_eq] at hx
      intro hqid
      apply hnodup.1
      have hmem : q.id ∈ List.map PostDB.id xs := List.mem_map_of_mem _ hq
      rwa [hqid, ← hx.1] at hmem
    · have hx' : (x.id == post_id && x.author_id == author_id) = false := by
        simpa using hx
      simp only [List.eraseP_cons, hx', cond_false] at hq
      obtain ⟨p, hp, hpid, hpauthor⟩ := hex
      have hpx : p ≠ x := by
        rintro rfl
        exact hx (by simp [hpid, hpauthor])
      have hpxs : p ∈ xs := by
        rcases List.mem_cons.1 hp with h | h
        · exact absurd h hpx
        · exact h
      rcases List.mem_cons.1 hq with rfl | hqxs
      · intro hqid
        apply hnodup.1
        have hmem : p.id ∈ List.map PostDB.id xs := List.mem_map_of_mem _ hpxs
        rwa [hpid, ← hqid] at hmem
      · exact ih hnodup.2 ⟨p, hpxs, hpid, hpauthor⟩ q hqxs

/-- Claim C10: when the caller's post exists (primary keys being unique),
deleting it succeeds and removes only that post row — the comments, users
and categories tables are untouched, so every comment referencing the
deleted post remains stored — while comment listing for that post id now
returns the 404, making those comments unreachable through it. -/
theorem C10_delete_keeps_comments (db : DB) (post_id : Nat)
    (current_user : UserDB)
    (hnodup : (db.posts.map PostDB.id).Nodup)
    (hex : ∃ p ∈ db.posts, p.id = post_id ∧
      p.author_id = current_user.id) :
    ∃ db', delete_post db post_id current_user =
        (.ok "Post deleted", db') ∧
      db'.comments = db.comments ∧
      db'.users = db.users ∧
      db'.categories = db.categories ∧
      (∀ q ∈ db'.posts, q.id ≠ post_id) ∧
      get_comments db' post_id = .error ⟨404, "Post not found", false⟩ := by
  obtain ⟨p, hp, hid, hauthor⟩ := hex
  have hsome : (db.posts.find?
      (fun q => q.id == post_id && q.author_id == current_user.id)).isSome :=
    List.find?_isSome.2 ⟨p, hp, by simp [hid, hauthor]⟩
  cases hfind : db.posts.find?
      (fun q => q.id == post_id && q.author_id == current_user.id) with
  | none => rw [hfind] at hsome; simp at hsome
  | some q =>
    refine ⟨{ db with posts := db.posts.eraseP (fun r => r.id == post_id && r.author_id == current_user.id) }, ?_, rfl, rfl, rfl, ?_, ?_⟩
    · simp [delete_post, hfind]
    · exact eraseP_id_gone post_id current_user.id db.posts hnodup
        ⟨p, hp, hid, hauthor⟩
    · have hnone : (db.posts.eraseP
          (fun r => r.id == post_id && r.author_id == current_user.id)).find?
            (fun r => r.id == post_id) = none := by
        refine List.find?_eq_none.2 (fun r hr hpred => ?_)
        exact eraseP_id_gone post_id current_user.id db.posts hnodup
          ⟨p, hp, hid, hauthor⟩ r hr (by simpa using hpred)
      simp [get_comments, hnone]

/-- Witness for C10: user 1 deletes their post 1, which has comment 1 on
it; the comment row survives while comment listing for post 1 turns 404. -/
theorem C10_witness :
    ∃ db', delete_post
        (⟨[⟨1, "u", ⟨0, "p"⟩⟩], [], [⟨1, "t", "c", 0, 1, none⟩],
          [⟨1, "hi", 0, 1, 1⟩], 2, 1, 2, 2⟩ : DB) 1 ⟨1, "u", ⟨0, "p"⟩⟩ =
        (.ok "Post deleted", db') ∧
      db'.comments = [⟨1, "hi", 0, 1, 1⟩] ∧
      get_comments db' 1 = .error ⟨404, "Post not found", false⟩ := by
  obtain ⟨db', h1, h2, _, _, _, h6⟩ := C10_delete_keeps_comments
    (⟨[⟨1, "u", ⟨0, "p"⟩⟩], [], [⟨1, "t", "c", 0, 1, none⟩],
      [⟨1, "hi", 0, 1, 1⟩], 2, 1, 2, 2⟩ : DB) 1 ⟨1, "u", ⟨0, "p"⟩⟩
    (by decide) ⟨⟨1, "t", "c", 0, 1, none⟩, by simp, rfl, rfl⟩
  exact ⟨db', h1, h2, h6⟩

end BlogAI
